import Mathlib

/-!
Verification of the `strict-boolean-conditions` rule of stencil-eslint.

The rule's core (the type classifier `getKind`, the failure determiner
`getTypeFailure` / `handleUnion` / `failureForKind` / `triState`, the option
resolver `parseOptions`, and the tree walker `walk` with its inner
`checkExpression`) is embedded below as executable Lean definitions, translated
from the source file function by function.  TypeScript types are modelled by
the `Ty` structure: the rule only ever consults a type through its numeric
`flags` bitmask (via `isTypeFlagSet`), its `intrinsicName`, its symbol name,
and — for unions — its ordered member list `types`, so those four fields are
exactly what `Ty` carries.  The bitmask constants are TypeScript's
`ts.TypeFlags` values.
-/

namespace StrictBooleanConditions

/-! ## TypeScript TypeFlags constants (values of `ts.TypeFlags`) -/

def tfAny : Nat := 1
def tfString : Nat := 4
def tfNumber : Nat := 8
def tfBoolean : Nat := 16
def tfEnum : Nat := 32
def tfStringLiteral : Nat := 128
def tfNumberLiteral : Nat := 256
def tfBooleanLiteral : Nat := 512
def tfEnumLiteral : Nat := 1024
def tfVoid : Nat := 16384
def tfUndefined : Nat := 32768
def tfNull : Nat := 65536
def tfObject : Nat := 524288
def tfUnion : Nat := 1048576
def tfTemplateLiteral : Nat := 134217728
def tfStringMapping : Nat := 268435456

/-- TypeScript composite flag: String | StringLiteral | TemplateLiteral | StringMapping. -/
def tfStringLike : Nat := tfString ||| tfStringLiteral ||| tfTemplateLiteral ||| tfStringMapping

/-- TypeScript composite flag: Number | NumberLiteral | Enum. -/
def tfNumberLike : Nat := tfNumber ||| tfNumberLiteral ||| tfEnum

/-- TypeScript composite flag: Enum | EnumLiteral. -/
def tfEnumLike : Nat := tfEnum ||| tfEnumLiteral

/-! ## The slice of `ts.Type` the rule consults -/

/-- A TypeScript type description, as far as the rule can observe one:
`flags` is the `ts.TypeFlags` bitmask, `intrinsicName` the checker's name for
intrinsic types (the rule compares it against "true"), `symbolName` the name
of the type's symbol if it has one (the rule compares it against "Promise"),
and `types` the ordered member list of a union type (empty for non-unions). -/
inductive Ty where
  | mk (flags : Nat) (intrinsicName : Option String) (symbolName : Option String)
      (types : List Ty)

def Ty.flags : Ty → Nat
  | .mk f _ _ _ => f

def Ty.intrinsicName : Ty → Option String
  | .mk _ i _ _ => i

def Ty.symbolName : Ty → Option String
  | .mk _ _ s _ => s

def Ty.types : Ty → List Ty
  | .mk _ _ _ ts => ts

/-- Source `isTypeFlagSet(obj, flag)`: `(obj.flags & flag) !== 0`. -/
def isTypeFlagSet (obj : Ty) (flag : Nat) : Bool :=
  (obj.flags &&& flag) != 0

/-! ## TypeKind and TypeFailure (the source's const enums, numbering in comments) -/

/-- Source `TypeKind`: String 0, FalseStringLiteral 1, Number 2,
FalseNumberLiteral 3, Boolean 4, FalseBooleanLiteral 5, Null 6, Undefined 7,
Enum 8, AlwaysTruthy 9, Promise 10. -/
inductive TypeKind where
  | String
  | FalseStringLiteral
  | Number
  | FalseNumberLiteral
  | Boolean
  | FalseBooleanLiteral
  | Null
  | Undefined
  | Enum
  | AlwaysTruthy
  | Promise
deriving DecidableEq, Repr

/-- Source `TypeFailure`: AlwaysTruthy 0, AlwaysFalsy 1, String 2, Number 3,
Null 4, Undefined 5, Enum 6, Mixes 7, Promise 8. -/
inductive TypeFailure where
  | AlwaysTruthy
  | AlwaysFalsy
  | String
  | Number
  | Null
  | Undefined
  | Enum
  | Mixes
  | Promise
deriving DecidableEq, BEq, Repr

/-! ## Options (source `parseOptions`, lines 118-133) -/

structure Options where
  strictNullChecks : Bool
  allowNullUnion : Bool
  allowUndefinedUnion : Bool
  allowString : Bool
  allowEnum : Bool
  allowNumber : Bool
  allowMix : Bool
  allowBooleanOrUndefined : Bool
  allowAnyRhs : Bool

/-- Source `parseOptions(ruleArguments, strictNullChecks)`: each toggle is
`ruleArguments.indexOf(name) !== -1`. -/
def parseOptions (ruleArguments : List String) (strictNullChecks : Bool) : Options :=
  { strictNullChecks := strictNullChecks
    allowNullUnion := ruleArguments.contains ("allow-null-union")
    allowUndefinedUnion := ruleArguments.contains ("allow-undefined-union")
    allowString := ruleArguments.contains ("allow-string")
    allowEnum := ruleArguments.contains ("allow-enum")
    allowNumber := ruleArguments.contains ("allow-number")
    allowMix := ruleArguments.contains ("allow-mix")
    allowBooleanOrUndefined := ruleArguments.contains ("allow-boolean-or-undefined")
    allowAnyRhs := ruleArguments.contains ("allow-any-rhs") }

/-- Source `create`, lines 59-60: the raw options are
`context.options[0] || ['allow-null-union', 'allow-undefined-union',
'allow-boolean-or-undefined']`, and the resolved options are
`parseOptions(rawOptions, true)` — the second argument is the literal `true`,
not the program's compilerOptions.strictNullChecks. -/
def defaultRuleArguments : List String :=
  [("allow-null-union"), ("allow-undefined-union"), ("allow-boolean-or-undefined")]

def createOptions (contextOptions : Option (List String)) : Options :=
  parseOptions (contextOptions.getD defaultRuleArguments) true

/-! ## The classifier and failure determiner (source lines 134-247) -/

/-- Source `getKind(type)`, lines 228-247: a chain of flag tests, first match
wins; `isObject('Promise')` is `type.getSymbol()` existing with name "Promise". -/
def getKind (type : Ty) : TypeKind :=
  if isTypeFlagSet type tfStringLike then TypeKind.String
  else if isTypeFlagSet type tfNumberLike then TypeKind.Number
  else if isTypeFlagSet type tfBoolean then TypeKind.Boolean
  else if type.symbolName == some ("Promise") then TypeKind.Promise
  else if isTypeFlagSet type tfNull then TypeKind.Null
  else if isTypeFlagSet type (tfUndefined ||| tfVoid) then TypeKind.Undefined
  else if isTypeFlagSet type tfEnumLike then TypeKind.Enum
  else if isTypeFlagSet type tfBooleanLiteral then
    (if type.intrinsicName == some ("true") then TypeKind.AlwaysTruthy
     else TypeKind.FalseBooleanLiteral)
  else TypeKind.AlwaysTruthy

/-- Source `failureForKind(kind, isInUnion, options)`, lines 189-208. -/
def failureForKind (kind : TypeKind) (isInUnion : Bool) (options : Options) :
    Option TypeFailure :=
  match kind with
  | TypeKind.String | TypeKind.FalseStringLiteral =>
      if options.allowString then none else some TypeFailure.String
  | TypeKind.Number | TypeKind.FalseNumberLiteral =>
      if options.allowNumber then none else some TypeFailure.Number
  | TypeKind.Enum =>
      if options.allowEnum then none else some TypeFailure.Enum
  | TypeKind.Promise => some TypeFailure.Promise
  | TypeKind.Null =>
      if isInUnion && !options.allowNullUnion then some TypeFailure.Null else none
  | TypeKind.Undefined =>
      if isInUnion && !options.allowUndefinedUnion then some TypeFailure.Undefined else none
  | _ => none

/-- Source `triState(kind)`, lines 210-227: always true, always false, or unknown. -/
def triState (kind : TypeKind) : Option Bool :=
  match kind with
  | TypeKind.String | TypeKind.Number | TypeKind.Boolean | TypeKind.Enum => none
  | TypeKind.Null | TypeKind.Undefined | TypeKind.FalseNumberLiteral
  | TypeKind.FalseStringLiteral | TypeKind.FalseBooleanLiteral => some false
  | TypeKind.AlwaysTruthy | TypeKind.Promise => some true

/-- Source `isUnionType(type)`, lines 272-274. -/
def isUnionType (type : Ty) : Bool :=
  isTypeFlagSet type tfUnion && !isTypeFlagSet type tfEnum

/-- The loop body of source `isBooleanUndefined`, lines 155-169, with the
mutable `isTruthy` accumulator passed explicitly; returning `none` models the
early `return undefined`. -/
def isBooleanUndefinedGo : List Ty → Bool → Option Bool
  | [], isTruthy => some isTruthy
  | ty :: rest, isTruthy =>
    if isTypeFlagSet ty tfBoolean then
      isBooleanUndefinedGo rest true
    else if isTypeFlagSet ty tfBooleanLiteral then
      isBooleanUndefinedGo rest (isTruthy || (ty.intrinsicName == some ("true")))
    else if !isTypeFlagSet ty (tfVoid ||| tfUndefined) then
      none
    else
      isBooleanUndefinedGo rest isTruthy

/-- Source `isBooleanUndefined(type)`: iterate `type.types` with `isTruthy`
starting false. -/
def isBooleanUndefined (type : Ty) : Option Bool :=
  isBooleanUndefinedGo type.types false

/-- The `for (const ty of type.types)` loop of source `handleUnion`,
lines 179-185: return the first member failure, else fall through to none. -/
def unionLoop (options : Options) : List Ty → Option TypeFailure
  | [] => none
  | ty :: rest =>
    match failureForKind (getKind ty) true options with
    | some failure => some failure
    | none => unionLoop options rest

/-- Source `handleUnion(type, options)`, lines 170-187: when
`allowBooleanOrUndefined` is set, a `switch` on `isBooleanUndefined(type)`
returns early on true/false and falls through on undefined; then the member
loop runs. -/
def handleUnion (type : Ty) (options : Options) : Option TypeFailure :=
  match (if options.allowBooleanOrUndefined then isBooleanUndefined type else none) with
  | some true => none
  | some false => some TypeFailure.AlwaysFalsy
  | none => unionLoop options type.types

/-- Source `getTypeFailure(type, options)`, lines 134-154. -/
def getTypeFailure (type : Ty) (options : Options) : Option TypeFailure :=
  if isUnionType type then
    handleUnion type options
  else
    match failureForKind (getKind type) false options with
    | some failure => some failure
    | none =>
      match triState (getKind type) with
      | some true =>
        if isTypeFlagSet type (tfAny ||| tfBooleanLiteral) then none
        else some TypeFailure.AlwaysTruthy
      | some false =>
        if isTypeFlagSet type tfBooleanLiteral then none
        else some TypeFailure.AlwaysFalsy
      | none => none

/-- The reporting decision of source `checkExpression` (lines 92-108) for one
site, given the site expression's type: `getTypeFailure`, then the
AlwaysTruthy carve-out (`!options.strictNullChecks` and a null/undefined-union
exception set suppresses the report), else report the failure. -/
def checkExpressionReports (type : Ty) (options : Options) : Option TypeFailure :=
  match getTypeFailure type options with
  | none => none
  | some failure =>
    if failure == TypeFailure.AlwaysTruthy && !options.strictNullChecks
        && (options.allowNullUnion || options.allowUndefinedUnion) then
      none
    else
      some failure

/-! ## The tree walker (source `walk`, lines 62-109)

`Node` models the slice of the TypeScript AST the walker dispatches on,
plus the generic statements needed to build source files.  The walker's
`switch (node.kind)` has cases for PrefixUnaryExpression, IfStatement,
WhileStatement, DoStatement, ConditionalExpression and ForStatement — and for
nothing else — followed by an unconditional `ts.forEachChild(node, cb)`
recursion into all children.  A `for` statement with no condition is a
distinct constructor, mirroring the `condition !== undefined` test. -/

inductive UnaryOp where
  | exclamation
  | minus
deriving DecidableEq

inductive BinOp where
  | andAnd
  | barBar
  | plus
deriving DecidableEq

inductive Node where
  | ident (name : String)
  | unary (op : UnaryOp) (operand : Node)
  | binary (op : BinOp) (left right : Node)
  | conditional (cond whenTrue whenFalse : Node)
  | ifStmt (cond thenStmt : Node)
  | whileStmt (cond body : Node)
  | doStmt (body cond : Node)
  | forStmt (cond body : Node)
  | forStmtNoCond (body : Node)
  | exprStmt (e : Node)
  | emptyStmt
deriving DecidableEq

/-- The full effect of the walker's callback `cb` on one node: the
(checked expression, location) pairs handed to `checkExpression` by the
`switch`, followed by those produced while recursing into the node's children
(`return ts.forEachChild(node, cb)`).  There is no `BinaryExpression` case in
the source switch, so a `binary` node contributes no pair of its own. -/
def cbPairs : Node → List (Node × Node)
  | Node.ident _ => []
  | Node.unary UnaryOp.exclamation e =>
      (e, Node.unary UnaryOp.exclamation e) :: cbPairs e
  | Node.unary _ e => cbPairs e
  | Node.binary _ l r => cbPairs l ++ cbPairs r
  | Node.conditional c t f =>
      (c, Node.conditional c t f) :: (cbPairs c ++ cbPairs t ++ cbPairs f)
  | Node.ifStmt c s => (c, Node.ifStmt c s) :: (cbPairs c ++ cbPairs s)
  | Node.whileStmt c b => (c, Node.whileStmt c b) :: (cbPairs c ++ cbPairs b)
  | Node.doStmt b c => (c, Node.doStmt b c) :: (cbPairs b ++ cbPairs c)
  | Node.forStmt c b => (c, Node.forStmt c b) :: (cbPairs c ++ cbPairs b)
  | Node.forStmtNoCond b => cbPairs b
  | Node.exprStmt e => cbPairs e
  | Node.emptyStmt => []

/-- Source `walk(sourceFile)`: `ts.forEachChild(sourceFile, cb)` applies `cb`
to each top-level statement. -/
def walkChecked (sourceFileStatements : List Node) : List (Node × Node) :=
  sourceFileStatements.flatMap cbPairs

/-- The diagnostics the walk emits, as (reported node, failure) pairs: each
checked site goes through `checkExpression`'s decision
(`checkExpressionReports`) against the site expression's type. -/
def walkDiagnostics (typeOf : Node → Ty) (options : Options)
    (sourceFileStatements : List Node) : List (Node × TypeFailure) :=
  (walkChecked sourceFileStatements).filterMap fun p =>
    (checkExpressionReports (typeOf p.1) options).map fun f => (p.1, f)

/-! ## Concrete type descriptions used in the theorems

Each value is what the TypeScript checker returns for the named type, as far
as the rule can observe it (flags bitmask, intrinsic name, symbol name, union
members).  Literal types carry only their `TypeFlags` literal flag — the rule
never reads a literal's value, so the value is not part of the model. -/

/-- The type `string`: flags String. -/
def stringType : Ty := Ty.mk tfString none none []

/-- The type of the literal `""` (the empty-string literal type): flags
StringLiteral. -/
def emptyStringLiteralType : Ty := Ty.mk tfStringLiteral none none []

/-- The type `number`: flags Number. -/
def numberType : Ty := Ty.mk tfNumber none none []

/-- The type of the literal `0` (the zero literal type): flags NumberLiteral. -/
def zeroLiteralType : Ty := Ty.mk tfNumberLiteral none none []

/-- A plain, non-literal `boolean` type: flags Boolean. -/
def plainBooleanType : Ty := Ty.mk tfBoolean none none []

/-- The literal `true` type: flags BooleanLiteral, intrinsic name "true". -/
def trueLiteralType : Ty := Ty.mk tfBooleanLiteral (some ("true")) none []

/-- The literal `false` type: flags BooleanLiteral, intrinsic name "false". -/
def falseLiteralType : Ty := Ty.mk tfBooleanLiteral (some ("false")) none []

/-- The `undefined` type: flags Undefined. -/
def undefinedType : Ty := Ty.mk tfUndefined (some ("undefined")) none []

/-- The `void` type: flags Void. -/
def voidType : Ty := Ty.mk tfVoid (some ("void")) none []

/-- An ordinary object type named SomeObject: flags Object, symbol "SomeObject". -/
def someObjectType : Ty := Ty.mk tfObject none (some ("SomeObject")) []

/-- The type `Promise<number>`: flags Object, symbol "Promise". -/
def promiseNumberType : Ty := Ty.mk tfObject none (some ("Promise")) []

/-- The union `boolean | undefined`: flags Union, members false, true,
undefined (the checker flattens `boolean` into its two literal members). -/
def booleanOrUndefinedType : Ty :=
  Ty.mk tfUnion none none [falseLiteralType, trueLiteralType, undefinedType]

/-- The union `string | number`: flags Union, members in that order. -/
def unionStringNumber : Ty := Ty.mk tfUnion none none [stringType, numberType]

/-- The union `number | string`: the same two members, reordered. -/
def unionNumberString : Ty := Ty.mk tfUnion none none [numberType, stringType]

/-- The union `undefined | void`: flags Union, members undefined and void. -/
def undefinedOrVoidUnion : Ty := Ty.mk tfUnion none none [undefinedType, voidType]

/-! ## Helper definitions and lemmas -/

/-- Is a kind one of the two falsy-literal kinds `getKind` is claimed to
produce for the empty-string and zero literal types? -/
def isFalseLiteralKind : TypeKind → Bool
  | TypeKind.FalseStringLiteral => true
  | TypeKind.FalseNumberLiteral => true
  | _ => false

/-- Is a failure-determiner result the `Mixes` failure? -/
def isMixesFailure : Option TypeFailure → Bool
  | some TypeFailure.Mixes => true
  | _ => false

/-- Written after the spec's union rule, for comparison with the source's
`handleUnion`: the first member, in declaration order, whose kind fails under
isInUnion=true determines the failure; if no member fails, the union passes. -/
def specFirstMemberFailure (members : List Ty) (options : Options) : Option TypeFailure :=
  members.findSome? fun ty => failureForKind (getKind ty) true options

theorem failureForKind_not_mixes (k : TypeKind) (b : Bool) (O : Options) :
    isMixesFailure (failureForKind k b O) = false := by
  cases k <;> simp only [failureForKind] <;> (try split) <;> rfl

theorem unionLoop_not_mixes (O : Options) (l : List Ty) :
    isMixesFailure (unionLoop O l) = false := by
  induction l with
  | nil => rfl
  | cons t r ih =>
    rw [unionLoop]
    split
    · next f h =>
      have hf := failureForKind_not_mixes (getKind t) true O
      rw [h] at hf
      exact hf
    · exact ih

theorem unionLoop_eq_findSome (O : Options) (l : List Ty) :
    unionLoop O l = specFirstMemberFailure l O := by
  induction l with
  | nil => rfl
  | cons t r ih =>
    rw [unionLoop, specFirstMemberFailure, List.findSome?_cons]
    cases h : failureForKind (getKind t) true O with
    | none => rw [ih, specFirstMemberFailure]
    | some f => rfl

theorem handleUnion_not_mixes (t : Ty) (O : Options) :
    isMixesFailure (handleUnion t O) = false := by
  rw [handleUnion]
  split
  · rfl
  · rfl
  · exact unionLoop_not_mixes O t.types

theorem getTypeFailure_not_mixes (t : Ty) (O : Options) :
    isMixesFailure (getTypeFailure t O) = false := by
  rw [getTypeFailure]
  split
  · exact handleUnion_not_mixes t O
  · split
    · next f h =>
      have hf := failureForKind_not_mixes (getKind t) false O
      rw [h] at hf
      exact hf
    · split
      · split <;> rfl
      · split <;> rfl
      · rfl

/-- When no member is a plain boolean or a boolean literal, the
`isBooleanUndefined` loop never flips its accumulator and never aborts,
provided each member carries the Void or Undefined flag. -/
theorem isBooleanUndefinedGo_all_undefined (l : List Ty)
    (hm : ∀ ty ∈ l, isTypeFlagSet ty (tfVoid ||| tfUndefined) = true
      ∧ isTypeFlagSet ty tfBoolean = false
      ∧ isTypeFlagSet ty tfBooleanLiteral = false) :
    ∀ b : Bool, isBooleanUndefinedGo l b = some b := by
  induction l with
  | nil => intro b; rfl
  | cons t r ih =>
    intro b
    obtain ⟨h1, h2, h3⟩ := hm t (List.mem_cons_self t r)
    rw [isBooleanUndefinedGo]
    simp only [h1, h2, h3, Bool.not_true, Bool.false_eq_true, if_false]
    exact ih (fun ty hty => hm ty (List.mem_cons_of_mem t hty)) b

/-- With `allowUndefinedUnion` enabled, a member classified `Undefined`
produces no failure, so a union of such members passes the member loop. -/
theorem unionLoop_all_undefined_allowed (O : Options)
    (hU : O.allowUndefinedUnion = true) (l : List Ty)
    (hm : ∀ ty ∈ l, getKind ty = TypeKind.Undefined) :
    unionLoop O l = none := by
  induction l with
  | nil => rfl
  | cons t r ih =>
    rw [unionLoop, hm t (List.mem_cons_self t r)]
    have hf : failureForKind TypeKind.Undefined true O = none := by
      simp [failureForKind, hU]
    rw [hf]
    exact ih (fun ty hty => hm ty (List.mem_cons_of_mem t hty))

/-! ## The claims -/

/-- Claim C4, counterexample: the Type Classifier maps the empty-string
literal type to `String`, not `FalseStringLiteral`, and the zero literal type
to `Number`, not `FalseNumberLiteral` — `getKind` tests only the StringLike
and NumberLike flag masks and never looks at a literal's value. -/
theorem getKind_empty_string_and_zero_counterexample :
    getKind emptyStringLiteralType = TypeKind.String
  ∧ getKind emptyStringLiteralType ≠ TypeKind.FalseStringLiteral
  ∧ getKind zeroLiteralType = TypeKind.Number
  ∧ getKind zeroLiteralType ≠ TypeKind.FalseNumberLiteral :=
  ⟨rfl, by decide, rfl, by decide⟩

/-- Claim C4, amended: every string-like type (the empty-string literal type
included) maps to Kind `String`, every number-like type that is not
string-like (the zero literal type included) maps to Kind `Number`, and the
kinds `FalseStringLiteral` and `FalseNumberLiteral` are never produced by
`getKind`. -/
theorem getKind_string_number_amended (t u : Ty)
    (hs : isTypeFlagSet t tfStringLike = true)
    (hn1 : isTypeFlagSet u tfStringLike = false)
    (hn2 : isTypeFlagSet u tfNumberLike = true) :
    getKind t = TypeKind.String
  ∧ getKind u = TypeKind.Number
  ∧ (∀ w : Ty, isFalseLiteralKind (getKind w) = false) := by
  refine ⟨?_, ?_, ?_⟩
  · rw [getKind, if_pos hs]
  · rw [getKind, if_neg (by simp [hn1]), if_pos hn2]
  · intro w
    rw [getKind]
    repeat' split
    all_goals rfl

/-- Witness for the amended C4 theorem at the two literal types. -/
theorem getKind_string_number_amended_witness :
    getKind emptyStringLiteralType = TypeKind.String
  ∧ getKind zeroLiteralType = TypeKind.Number :=
  ⟨(getKind_string_number_amended emptyStringLiteralType zeroLiteralType
      (by decide) (by decide) (by decide)).1,
   (getKind_string_number_amended emptyStringLiteralType zeroLiteralType
      (by decide) (by decide) (by decide)).2.1⟩

/-- Claim C5, counterexample: for the type `boolean | undefined` with
allow-boolean-or-undefined unset and the default null-union/undefined-union
exceptions in place, the Failure Determiner returns no failure — not the
failure `Undefined` the claim states — because the `Undefined` member is
exempted by `allowUndefinedUnion` in the generic union path. -/
theorem boolean_or_undefined_default_counterexample :
    getTypeFailure booleanOrUndefinedType
      (parseOptions [("allow-null-union"), ("allow-undefined-union")] true) = none
  ∧ getTypeFailure booleanOrUndefinedType
      (parseOptions [("allow-null-union"), ("allow-undefined-union")] true)
      ≠ some TypeFailure.Undefined :=
  ⟨rfl, by decide⟩

/-- Claim C5, amended: for `boolean | undefined`, options
["allow-boolean-or-undefined"] give no failure; with that option unset and the
default null-union/undefined-union exceptions in place the result is also no
failure (the `Undefined` member is allowed by allow-undefined-union); the
failure `Undefined` arises only when allow-undefined-union is unset as well. -/
theorem boolean_or_undefined_scenarios :
    getTypeFailure booleanOrUndefinedType
      (parseOptions [("allow-boolean-or-undefined")] true) = none
  ∧ getTypeFailure booleanOrUndefinedType
      (parseOptions [("allow-null-union"), ("allow-undefined-union")] true) = none
  ∧ getTypeFailure booleanOrUndefinedType
      (parseOptions [("allow-null-union")] true) = some TypeFailure.Undefined :=
  ⟨rfl, rfl, rfl⟩

/-- Claim C6: when the boolean-or-undefined special case does not apply
(the toggle is off, or `isBooleanUndefined` falls through), `handleUnion`
returns exactly the failure of the first member, in declaration order, whose
kind fails under isInUnion=true (`specFirstMemberFailure`), and none when no
member fails; reordering the members of `string | number` (both failing under
empty options) flips the reported category between `String` and `Number`. -/
theorem handleUnion_first_member_order (U : Ty) (O : Options)
    (h : O.allowBooleanOrUndefined = false ∨ isBooleanUndefined U = none) :
    handleUnion U O = specFirstMemberFailure U.types O
  ∧ handleUnion unionStringNumber (parseOptions [] true) = some TypeFailure.String
  ∧ handleUnion unionNumberString (parseOptions [] true) = some TypeFailure.Number := by
  refine ⟨?_, rfl, rfl⟩
  have hs : (if O.allowBooleanOrUndefined then isBooleanUndefined U else none)
      = (none : Option Bool) := by
    rcases h with h | h
    · simp [h]
    · simp [h]
  rw [handleUnion, hs]
  exact unionLoop_eq_findSome O U.types

/-- Witness for C6: the two-failing-member union `string | number` under empty
options, where the special case is off. -/
theorem handleUnion_first_member_order_witness :
    handleUnion unionStringNumber (parseOptions [] true)
      = specFirstMemberFailure unionStringNumber.types (parseOptions [] true) :=
  (handleUnion_first_member_order unionStringNumber (parseOptions [] true)
    (Or.inl (by decide))).1

/-- Claim C7: a type classified `Promise` always yields the failure `Promise`
from the Failure Determiner, whatever the resolved options; `failureForKind`
returns `Promise` for the `Promise` kind in union position and out of it, with
no option consulted. -/
theorem promise_always_fails (t : Ty) (O : Options)
    (hu : isUnionType t = false) (hk : getKind t = TypeKind.Promise) :
    getTypeFailure t O = some TypeFailure.Promise
  ∧ (∀ b : Bool, failureForKind TypeKind.Promise b O = some TypeFailure.Promise) := by
  refine ⟨?_, fun b => rfl⟩
  rw [getTypeFailure, hu]
  simp only [Bool.false_eq_true, if_false, hk]
  rfl

/-- Witness for C7: `Promise<number>` with every category-exemption toggle
enabled still fails `Promise`. -/
theorem promise_always_fails_witness :
    getTypeFailure promiseNumberType
      (parseOptions [("allow-string"), ("allow-number"), ("allow-enum")] true)
      = some TypeFailure.Promise :=
  (promise_always_fails promiseNumberType
    (parseOptions [("allow-string"), ("allow-number"), ("allow-enum")] true)
    (by decide) (by decide)).1

/-- Claim C8: a non-union type classified as the plain `Boolean` kind never
fails: `failureForKind` has no `Boolean` case and `triState` is ambiguous on
`Boolean`, so `getTypeFailure` returns no failure for every options value. -/
theorem plain_boolean_never_fails (t : Ty) (O : Options)
    (hu : isUnionType t = false) (hk : getKind t = TypeKind.Boolean) :
    getTypeFailure t O = none := by
  rw [getTypeFailure, hu]
  simp only [Bool.false_eq_true, if_false, hk]
  rfl

/-- Witness for C8: the plain `boolean` type under empty options. -/
theorem plain_boolean_never_fails_witness :
    getTypeFailure plainBooleanType (parseOptions [] true) = none :=
  plain_boolean_never_fails plainBooleanType (parseOptions [] true)
    (by decide) (by decide)

/-- Claim C9: the failure category `Mixes` is unreachable — for every type and
every resolved options value, neither `getTypeFailure` nor `handleUnion` nor
`failureForKind` (at any kind, in or out of a union) ever returns it. -/
theorem mixes_unreachable (t : Ty) (O : Options) (k : TypeKind) (b : Bool) :
    isMixesFailure (getTypeFailure t O) = false
  ∧ isMixesFailure (handleUnion t O) = false
  ∧ isMixesFailure (failureForKind k b O) = false :=
  ⟨getTypeFailure_not_mixes t O, handleUnion_not_mixes t O,
   failureForKind_not_mixes k b O⟩

/-- Claim C10: for a union whose members are all Undefined/Void (no boolean
and no boolean-literal member), enabling allowBooleanOrUndefined makes
`handleUnion` fail `AlwaysFalsy` even though allowUndefinedUnion is enabled,
while with allowBooleanOrUndefined unset the same union and options produce no
failure — the special case is not a pure exemption. -/
theorem boolean_or_undefined_not_monotone (U : Ty) (O : Options)
    (hU : O.allowUndefinedUnion = true)
    (hm : ∀ ty ∈ U.types, isTypeFlagSet ty (tfVoid ||| tfUndefined) = true
      ∧ isTypeFlagSet ty tfBoolean = false
      ∧ isTypeFlagSet ty tfBooleanLiteral = false
      ∧ getKind ty = TypeKind.Undefined) :
    handleUnion U { O with allowBooleanOrUndefined := true } = some TypeFailure.AlwaysFalsy
  ∧ handleUnion U { O with allowBooleanOrUndefined := false } = none := by
  constructor
  · have hb : isBooleanUndefined U = some false :=
      isBooleanUndefinedGo_all_undefined U.types
        (fun ty hty => ⟨(hm ty hty).1, (hm ty hty).2.1, (hm ty hty).2.2.1⟩) false
    rw [handleUnion]
    simp only [if_true]
    rw [hb]
  · rw [handleUnion]
    simp only [Bool.false_eq_true, if_false]
    exact unionLoop_all_undefined_allowed { O with allowBooleanOrUndefined := false }
      hU U.types (fun ty hty => (hm ty hty).2.2.2)

/-- Witness for C10: the union `undefined | void` with allow-undefined-union
enabled, evaluated with the boolean-or-undefined toggle on and off. -/
theorem boolean_or_undefined_not_monotone_witness :
    handleUnion undefinedOrVoidUnion
      { parseOptions [("allow-undefined-union")] true with allowBooleanOrUndefined := true }
      = some TypeFailure.AlwaysFalsy
  ∧ handleUnion undefinedOrVoidUnion
      { parseOptions [("allow-undefined-union")] true with allowBooleanOrUndefined := false }
      = none :=
  boolean_or_undefined_not_monotone undefinedOrVoidUnion
    (parseOptions [("allow-undefined-union")] true) (by decide) (by decide)

/-- Claim C1 (code bug): the walker never passes the operands of a `&&` or
`||` expression to `checkExpression` — its `switch` has no `BinaryExpression`
case — so a source file whose one statement is `a && b` yields no checked site
and no diagnostic even when both operands have type `string`, although a
string type at a checked site (here shown at an `if` condition) does fail. -/
theorem binary_operands_never_checked :
    walkChecked [Node.exprStmt (Node.binary BinOp.andAnd
      (Node.ident ("a")) (Node.ident ("b")))] = []
  ∧ walkDiagnostics (fun _ => stringType) (createOptions none)
      [Node.exprStmt (Node.binary BinOp.andAnd (Node.ident ("a")) (Node.ident ("b")))] = []
  ∧ checkExpressionReports stringType (createOptions none) = some TypeFailure.String
  ∧ walkChecked [Node.ifStmt (Node.ident ("c")) Node.emptyStmt]
      = [(Node.ident ("c"), Node.ifStmt (Node.ident ("c")) Node.emptyStmt)] :=
  ⟨rfl, rfl, rfl, rfl⟩

/-- Claim C2 (code bug): `create` resolves the options with
`parseOptions(rawOptions, true)` — `strictNullChecks` is the literal `true`,
not the project's compiler flag — so with options ["allow-null-union"] an
always-truthy object type is still reported; the AlwaysTruthy suppression only
fires on an options value with `strictNullChecks := false`, which
`createOptions` can never produce. -/
theorem strict_null_checks_hardcoded :
    (createOptions (some [("allow-null-union")])).strictNullChecks = true
  ∧ checkExpressionReports someObjectType (createOptions (some [("allow-null-union")]))
      = some TypeFailure.AlwaysTruthy
  ∧ checkExpressionReports someObjectType
      { createOptions (some [("allow-null-union")]) with strictNullChecks := false }
      = none :=
  ⟨rfl, rfl, rfl⟩

/-- Claim C3 (code bug): the allow-any-rhs option is parsed into
`allowAnyRhs` but the walker never consults it — no `&&`/`||` operand is ever
checked, with the option off just as with it on, so the claimed selective
exemption of any-typed right-hand operands does not exist: here the right
operand of `||` stays unchecked and undiagnosed under options [] (allowAnyRhs
false) with operand type `string`. -/
theorem allow_any_rhs_never_consulted :
    (parseOptions [("allow-any-rhs")] true).allowAnyRhs = true
  ∧ (parseOptions [] true).allowAnyRhs = false
  ∧ walkChecked [Node.exprStmt (Node.binary BinOp.barBar
      (Node.ident ("a")) (Node.ident ("b")))] = []
  ∧ walkDiagnostics (fun _ => stringType) (parseOptions [] true)
      [Node.exprStmt (Node.binary BinOp.barBar (Node.ident ("a")) (Node.ident ("b")))] = [] :=
  ⟨rfl, rfl, rfl, rfl⟩

end StrictBooleanConditions
